import Mathlib

/-!
Verification development for the msocks client core
(`src/session/client_session.cpp`, `src/utility/socket_pair.hpp`,
`src/utility/local_socks5.cpp`).

Bytes are modelled as `Nat` (all values produced by the transport are < 256;
none of the properties below depend on that bound).  The stream cipher
(CryptoPP `Salsa20`) is treated as an opaque additive stream cipher, exactly
as the spec prescribes: a keystream function `ks key iv pos` is a parameter of
every definition, and `ProcessString` XORs consecutive keystream positions
into the buffer while advancing the cursor by the buffer length.
-/

namespace MSocks

/-- Keystream abstraction: key, IV and absolute position determine one
keystream byte.  CryptoPP `Salsa20` is an additive (XOR) stream cipher of this
shape; its internals are out of scope per the spec. -/
def KS : Type := List Nat → List Nat → Nat → Nat

/-- State of one direction's cipher object (`encrypt` / `decrypt` members of
`client_session`): the key and IV installed by `SetKeyWithIV` plus the running
keystream cursor. -/
structure CipherState where
  key : List Nat
  iv : List Nat
  pos : Nat
  deriving Repr, DecidableEq

/-- `SetKeyWithIV(key, iv)`: installs key material and resets the keystream
cursor to position zero (client_session.cpp lines 297-298). -/
def setKeyWithIV (key iv : List Nat) : CipherState :=
  ⟨key, iv, 0⟩

/-- XOR the bytes of `b` with consecutive keystream bytes starting at
position `p`. -/
def xorKeystream (ks : KS) (key iv : List Nat) : Nat → List Nat → List Nat
  | _, [] => []
  | p, x :: xs => Nat.xor x (ks key iv p) :: xorKeystream ks key iv (p + 1) xs

/-- `ProcessString(buf, n)`: transforms exactly the bytes it is given, in
place, advancing the cursor by the buffer length (used at client_session.cpp
lines 278, 300, 318).  Returns the advanced cipher state and the transformed
bytes. -/
def processString (ks : KS) (s : CipherState) (b : List Nat) : CipherState × List Nat :=
  ({ s with pos := s.pos + b.length }, xorKeystream ks s.key s.iv s.pos b)

theorem xorKeystream_length (ks : KS) (key iv : List Nat) (p : Nat) (b : List Nat) :
    (xorKeystream ks key iv p b).length = b.length := by
  induction b generalizing p with
  | nil => rfl
  | cons x xs ih => simp [xorKeystream, ih]

theorem xorKeystream_append (ks : KS) (key iv b1 b2 : List Nat) (p : Nat) :
    xorKeystream ks key iv p (b1 ++ b2)
      = xorKeystream ks key iv p b1 ++ xorKeystream ks key iv (p + b1.length) b2 := by
  induction b1 generalizing p with
  | nil => simp [xorKeystream]
  | cons x xs ih =>
      have h : p + 1 + xs.length = p + (xs.length + 1) := by omega
      simp [xorKeystream, ih (p + 1), h]

/-- C1: transforming `b.take n1` and then `b.drop n1` with the same continuing
cipher state produces output byte-identical to transforming `b` in one call on
a fresh state initialized with the same key and IV; the continuing state also
coincides with the one-call state, and each call's output has exactly the
length of the bytes that call was given (no buffering or re-alignment). -/
theorem transform_split_continuity (ks : KS) (key iv b : List Nat) (n1 : Nat) :
    (processString ks (setKeyWithIV key iv) (b.take n1)).2
        ++ (processString ks (processString ks (setKeyWithIV key iv) (b.take n1)).1 (b.drop n1)).2
      = (processString ks (setKeyWithIV key iv) b).2
    ∧ (processString ks (processString ks (setKeyWithIV key iv) (b.take n1)).1 (b.drop n1)).1
      = (processString ks (setKeyWithIV key iv) b).1
    ∧ (processString ks (setKeyWithIV key iv) (b.take n1)).2.length = (b.take n1).length := by
  have htd : b.take n1 ++ b.drop n1 = b := List.take_append_drop n1 b
  have hlen : (b.take n1).length + (b.drop n1).length = b.length := by
    rw [← List.length_append, htd]
  refine ⟨?_, ?_, ?_⟩
  · show xorKeystream ks key iv 0 (b.take n1)
        ++ xorKeystream ks key iv (0 + (b.take n1).length) (b.drop n1)
      = xorKeystream ks key iv 0 b
    rw [← xorKeystream_append, htd]
  · show ({ key := key, iv := iv, pos := 0 + (b.take n1).length + (b.drop n1).length } : CipherState)
      = { key := key, iv := iv, pos := 0 + b.length }
    congr 1
    omega
  · exact xorKeystream_length ks key iv 0 (b.take n1)

/-! ## SOCKS5 negotiation (client_session.cpp lines 17-225)

The local socket is modelled as the list of bytes the client will deliver
before closing the connection.  `async_read(..., transfer_exactly(n), yield)`
either consumes exactly `n` bytes or — when the stream ends first — throws a
`system_error`, modelled as a transport error. -/

/-- Failure of an `async_read`/`async_write` call: the thrown `system_error`
(the spec's `TransportError`). -/
inductive Err where
  | transportError
  deriving Repr, DecidableEq

/-- Modelled from the spec: the numeric protocol constant `SOCKS5_VERSION`
lives in `utility/socks_constants.hpp`, which is not among the provided
sources; its value 5 is fixed by spec section 6. -/
def SOCKS5_VERSION : Nat := 5

/-- Modelled from the spec: `AUTH_NO_AUTH` from `utility/socks_constants.hpp`;
value 0x00 per spec section 6. -/
def AUTH_NO_AUTH : Nat := 0

/-- Modelled from the spec: `CONN_TCP` (the CONNECT command) from
`utility/socks_constants.hpp`; value 1 per spec section 6. -/
def CONN_TCP : Nat := 1

/-- Modelled from the spec: `ADDR_IPV4` from `utility/socks_constants.hpp`;
value 1 per spec section 6. -/
def ADDR_IPV4 : Nat := 1

/-- Modelled from the spec: `ADDR_DOMAIN` from `utility/socks_constants.hpp`;
value 3 per spec section 6. -/
def ADDR_DOMAIN : Nat := 3

/-- Modelled from the spec: `ADDR_IPV6` from `utility/socks_constants.hpp`;
value 4 per spec section 6. -/
def ADDR_IPV6 : Nat := 4

/-- `async_read(local, ..., transfer_exactly(n), yield)`: consume exactly `n`
bytes of the stream, or fail with the thrown `system_error` when fewer are
available before the peer closes. -/
def readExactly (n : Nat) (s : List Nat) : Except Err (List Nat × List Nat) :=
  if n ≤ s.length then .ok (s.take n, s.drop n) else .error .transportError

theorem ok_bind {α β : Type} (x : α) (f : α → Except Err β) :
    (Except.ok x >>= f : Except Err β) = f x := rfl

theorem error_bind {α β : Type} (e : Err) (f : α → Except Err β) :
    (Except.error e >>= f : Except Err β) = Except.error e := rfl

/-- `client_session::do_socks5_auth` (lines 17-69): reads the 2-byte greeting
header `{version, n_method}` (`transfer_exactly(2)`, rendered as a pattern
match: two bytes are consumed, or the read throws when the stream is shorter)
and then `n_method` method bytes; scans them for `AUTH_NO_AUTH`.  On success
it writes the reply `[5, 0]` to the local socket and returns `true`;
otherwise it returns `false` without writing anything.  Note: the `version`
byte of the greeting is read but never compared to anything, mirroring the
code, where `auth_method.version` is never used.  Result:
`(find_auth, bytes written to local, rest of stream)`. -/
def do_socks5_auth : List Nat → Except Err (Bool × List Nat × List Nat)
  | _version :: n_method :: s1 => do
      let (methods, s2) ← readExactly n_method s1
      if methods.contains AUTH_NO_AUTH then
        .ok (true, [SOCKS5_VERSION, AUTH_NO_AUTH], s2)
      else
        .ok (false, [], s2)
  | _ => .error .transportError

/-- Parsed target of the SOCKS5 request: the address bytes handed to
`make_address_v4`/`make_address_v6`/the string builder, plus the decoded
port. -/
inductive Addr where
  | v4 : List Nat → Nat → Addr
  | v6 : List Nat → Nat → Addr
  | domain : List Nat → Nat → Addr
  deriving Repr, DecidableEq

/-- Big-endian 16-bit decode, the effect of `big_to_native` on a `uint16_t`
copied from two wire bytes (platform independent). -/
def be16 (hi lo : Nat) : Nat := hi * 256 + lo

/-- The fixed 10-byte success reply `[5,0,0,1,0,0,0,0,0,0]` written by
`do_get_proxy_addr` (lines 187-209). -/
def socks5Reply : List Nat :=
  [SOCKS5_VERSION, 0, 0, ADDR_IPV4, 0, 0, 0, 0, 0, 0]

/-- The `ADDR_DOMAIN` branch of `client_session::do_get_proxy_addr`
(lines 157-180): reads the 1-byte domain length (`transfer_exactly(1)`,
rendered as a pattern match) and then exactly `domain_length + 2` bytes
(domain plus 2-byte big-endian port, `transfer_exactly(domain_length + 2)`),
failing with the thrown `system_error` when the stream is shorter. -/
def do_get_domain_addr : List Nat → Except Err (Bool × Option Addr × List Nat × List Nat)
  | domain_length :: s2 => do
      let (ap, s3) ← readExactly (domain_length + 2) s2
      .ok (true,
           some (.domain (ap.take domain_length)
             (be16 (ap.getD domain_length 0) (ap.getD (domain_length + 1) 0))),
           socks5Reply, s3)
  | [] => .error .transportError

/-- `client_session::do_get_proxy_addr` (lines 71-211): reads the 4-byte
request header `{version, cmd, reserve, addr_type}` (`transfer_exactly(4)`,
rendered as a pattern match: four bytes are consumed, or the read throws);
rejects version ≠ 5 and any command other than `CONN_TCP` (the `CONN_BND`,
`CONN_UDP` and `default` switch cases all fail alike) with `(false, ...)`;
then reads the address per `addr_type`: IPv4 reads 4+2 bytes; IPv6 reads
16+2 bytes and — faithfully to the
`std::reverse(addr_pt.addr.begin(), addr_pt.addr.end())` at line 152 —
REVERSES the 16 address bytes before constructing the address; Domain reads
a 1-byte length (pattern match) then exactly `length + 2` bytes.  Ports are
decoded big-endian (`big_to_native`).  On success the fixed 10-byte reply is
written to the local socket.  Result:
`(success, parsed address, bytes written to local, rest)`. -/
def do_get_proxy_addr : List Nat → Except Err (Bool × Option Addr × List Nat × List Nat)
  | version :: cmd :: _reserve :: addr_type :: s1 =>
      if version ≠ SOCKS5_VERSION then
        .ok (false, none, [], s1)
      else if cmd ≠ CONN_TCP then
        .ok (false, none, [], s1)
      else if addr_type = ADDR_IPV4 then do
        let (ap, s2) ← readExactly (32 / 8 + 2) s1
        .ok (true, some (.v4 (ap.take 4) (be16 (ap.getD 4 0) (ap.getD 5 0))), socks5Reply, s2)
      else if addr_type = ADDR_IPV6 then do
        let (ap, s2) ← readExactly (128 / 8 + 2) s1
        .ok (true, some (.v6 (ap.take 16).reverse (be16 (ap.getD 16 0) (ap.getD 17 0))),
             socks5Reply, s2)
      else if addr_type = ADDR_DOMAIN then
        do_get_domain_addr s1
      else
        .ok (false, none, [], s1)
  | _ => .error .transportError

/-- `client_session::do_local_socks5` (lines 213-225): run the auth step; on
`find_auth` continue with the request parse, otherwise fail with
`(false, ...)`. -/
def do_local_socks5 (s : List Nat) : Except Err (Bool × Option Addr × List Nat × List Nat) := do
  let (ok1, reply1, s1) ← do_socks5_auth s
  if ok1 then
    let (ok2, addrOpt, reply2, s2) ← do_get_proxy_addr s1
    .ok (ok2, addrOpt, reply1 ++ reply2, s2)
  else
    .ok (false, none, reply1, s1)

/-- C3: refuted by evaluation — for the IPv6 request carrying the wire bytes
0,1,...,15 and port 80, `do_get_proxy_addr` constructs the address from the
REVERSED byte sequence 15,...,0 (the `std::reverse` at
client_session.cpp line 152), which differs from the wire order; the port is
still decoded big-endian. -/
theorem ipv6_bytes_are_reversed :
    do_get_proxy_addr
        ([SOCKS5_VERSION, CONN_TCP, 0, ADDR_IPV6]
          ++ [0, 1, 2, 3, 4, 5, 6, 7, 8, 9, 10, 11, 12, 13, 14, 15] ++ [0, 80])
      = .ok (true, some (.v6 [15, 14, 13, 12, 11, 10, 9, 8, 7, 6, 5, 4, 3, 2, 1, 0] 80),
             socks5Reply, [])
    ∧ ([15, 14, 13, 12, 11, 10, 9, 8, 7, 6, 5, 4, 3, 2, 1, 0] : List Nat)
        ≠ [0, 1, 2, 3, 4, 5, 6, 7, 8, 9, 10, 11, 12, 13, 14, 15] :=
  ⟨rfl, by decide⟩

/-- C7 counterexample: a greeting whose version byte is 4 (not 5), offering
the no-auth method, is accepted by `do_socks5_auth` — it succeeds and writes
the `[5, 0]` reply instead of failing with `UnsupportedVersion`. -/
theorem greeting_version_not_checked :
    (4 : Nat) ≠ SOCKS5_VERSION
    ∧ do_socks5_auth [4, 1, 0] = .ok (true, [SOCKS5_VERSION, AUTH_NO_AUTH], []) :=
  ⟨by decide, rfl⟩

/-- C7 (amended): parsing the client greeting ignores the version byte
entirely — replacing it changes nothing about the result — and a truncated
read (a greeting shorter than 2 bytes, or fewer method bytes on the stream
than the greeting declares) fails with the transport error. -/
theorem greeting_ignores_version_and_fails_on_truncation :
    (∀ a b : Nat, ∀ rest : List Nat,
      do_socks5_auth (a :: rest) = do_socks5_auth (b :: rest))
    ∧ (∀ s : List Nat, s.length < 2 → do_socks5_auth s = .error .transportError)
    ∧ (∀ (v n : Nat) (rest : List Nat), rest.length < n →
        do_socks5_auth (v :: n :: rest) = .error .transportError) := by
  refine ⟨?_, ?_, ?_⟩
  · intro a b rest
    cases rest with
    | nil => rfl
    | cons m rs => rfl
  · intro s hs
    match s with
    | [] => rfl
    | [x] => rfl
    | x :: y :: t =>
        exfalso
        simp only [List.length_cons] at hs
        omega
  · intro v n rest hr
    have hre : readExactly n rest = .error .transportError := by
      unfold readExactly
      rw [if_neg (by omega : ¬ n ≤ rest.length)]
    unfold do_socks5_auth
    simp only [hre, error_bind]

/-- C7 witness: a concrete instance of the amended claim — the greeting
`[9,1,0]` parses exactly like `[5,1,0]`, and the greeting `[5,2,0]`, which
declares two method bytes but delivers only one, fails with the transport
error. -/
theorem greeting_ignores_version_witness :
    do_socks5_auth (9 :: [1, 0]) = do_socks5_auth (5 :: [1, 0])
    ∧ do_socks5_auth (5 :: 2 :: [0]) = .error .transportError :=
  ⟨greeting_ignores_version_and_fails_on_truncation.1 9 5 [1, 0],
   greeting_ignores_version_and_fails_on_truncation.2.2 5 2 [0] (by decide)⟩

/-- The well-formed header `[5, 1, 0, 3]` (version 5, CONNECT, reserved,
domain address type) reaches the domain branch: `do_get_proxy_addr`
delegates the rest of the stream to `do_get_domain_addr`. -/
theorem do_get_proxy_addr_domain_header (s1 : List Nat) :
    do_get_proxy_addr (SOCKS5_VERSION :: CONN_TCP :: 0 :: ADDR_DOMAIN :: s1)
      = do_get_domain_addr s1 := by
  unfold do_get_proxy_addr
  norm_num [SOCKS5_VERSION, CONN_TCP, ADDR_IPV4, ADDR_IPV6, ADDR_DOMAIN]

/-- C8: a domain-typed request with declared length 255 and at least 257
bytes following (255 domain bytes plus the 2-byte port) parses successfully
into a 255-byte domain; and whenever the declared domain length exceeds the
bytes actually available on the stream, `do_get_proxy_addr` fails with the
transport error — the address is never silently truncated. -/
theorem domain_length_boundary :
    (∀ rest : List Nat, 257 ≤ rest.length →
      ∃ d : List Nat, ∃ p : Nat,
        do_get_proxy_addr ([SOCKS5_VERSION, CONN_TCP, 0, ADDR_DOMAIN, 255] ++ rest)
          = .ok (true, some (.domain d p), socks5Reply, rest.drop 257)
        ∧ d.length = 255)
    ∧ (∀ (dl : Nat) (rest : List Nat), rest.length < dl →
        do_get_proxy_addr ([SOCKS5_VERSION, CONN_TCP, 0, ADDR_DOMAIN, dl] ++ rest)
          = .error .transportError) := by
  constructor
  · intro rest hrest
    refine ⟨(rest.take (255 + 2)).take 255,
      be16 ((rest.take (255 + 2)).getD 255 0) ((rest.take (255 + 2)).getD (255 + 1) 0), ?_, ?_⟩
    · have hre : readExactly (255 + 2) rest
          = .ok (rest.take (255 + 2), rest.drop (255 + 2)) := by
        unfold readExactly
        rw [if_pos (by omega : 255 + 2 ≤ rest.length)]
      simp only [List.cons_append, List.nil_append]
      rw [do_get_proxy_addr_domain_header]
      unfold do_get_domain_addr
      simp only [hre, ok_bind]
    · simp only [List.length_take]
      omega
  · intro dl rest hr
    have hre : readExactly (dl + 2) rest = .error .transportError := by
      unfold readExactly
      rw [if_neg (by omega : ¬ dl + 2 ≤ rest.length)]
    simp only [List.cons_append, List.nil_append]
    rw [do_get_proxy_addr_domain_header]
    unfold do_get_domain_addr
    simp only [hre, error_bind]

/-- C8 witness: concrete instances — a request with a 255-byte domain (255
sevens followed by a 2-byte port) parses successfully, and a request
declaring 9 domain bytes while the stream delivers none fails with the
transport error. -/
theorem domain_length_boundary_witness :
    (∃ d : List Nat, ∃ p : Nat,
      do_get_proxy_addr
          ([SOCKS5_VERSION, CONN_TCP, 0, ADDR_DOMAIN, 255] ++ List.replicate 257 7)
        = .ok (true, some (.domain d p), socks5Reply, (List.replicate 257 7).drop 257)
      ∧ d.length = 255)
    ∧ do_get_proxy_addr [SOCKS5_VERSION, CONN_TCP, 0, ADDR_DOMAIN, 9]
        = .error .transportError :=
  ⟨domain_length_boundary.1 (List.replicate 257 7) (by simp only [List.length_replicate]; omega),
   domain_length_boundary.2 9 [] (by decide)⟩

/-! ## Tunnel handshake (client_session.cpp lines 292-308)

`send_handshake` writes `buffer(&size, sizeof(size))` for a `uint16_t` held
in host memory, so the two wire bytes of the size field depend on the host's
endianness; the model is parameterized by `bigEndianHost`. -/

/-- The two bytes that `buffer(&size, sizeof(size))` exposes for a
`uint16_t`: low byte first on a little-endian host, high byte first on a
big-endian host.  No `native_to_big`/`big_to_native` conversion is applied
to `size` in `send_handshake`, so the wire order is the host order. -/
def u16NativeBytes (bigEndianHost : Bool) (n : Nat) : List Nat :=
  if bigEndianHost then [n / 256 % 256, n % 256] else [n % 256, n / 256 % 256]

/-- The bytes of the `std::string addr_port` ("host:port" text). -/
def strBytes (s : String) : List Nat := s.toList.map Char.toNat

/-- Everything `client_session::send_handshake` produces: the single
scatter-gather frame written to the remote (one `async_write` over the
3-buffer sequence `[size][iv][encrypted addr_port]`, `transfer_all`), the
individual fields, and the two cipher states after the call. -/
structure HandshakeOut where
  frame : List Nat
  sizeField : Nat
  ivBytes : List Nat
  encAddr : List Nat
  encryptAfter : CipherState
  decryptAfter : CipherState
  deriving Repr, DecidableEq

/-- `client_session::send_handshake` (lines 292-308): a fresh random IV (the
8-byte `iv` member, a parameter here) is installed with `SetKeyWithIV` on
both the `encrypt` and `decrypt` cipher objects; `addr_port` is encrypted in
place by `encrypt.ProcessString`; `uint16_t size = iv.size() +
addr_port.size()` (truncation modulo 2^16, no endianness conversion); the
frame is the buffer sequence `[size bytes][iv][encrypted addr_port]` issued
as one `async_write`. -/
def send_handshake (ks : KS) (bigEndianHost : Bool) (key iv : List Nat)
    (addr_port : String) : HandshakeOut :=
  let encrypt0 := setKeyWithIV key iv
  let decrypt0 := setKeyWithIV key iv
  let step := processString ks encrypt0 (strBytes addr_port)
  let size := (iv.length + (strBytes addr_port).length) % 65536
  { frame := u16NativeBytes bigEndianHost size ++ iv ++ step.2
    sizeField := size
    ivBytes := iv
    encAddr := step.2
    encryptAfter := step.1
    decryptAfter := decrypt0 }

/-- C4: the handshake is one scatter-gather write whose payload is exactly
`[u16 size][iv bytes][encrypted address bytes]`; the encrypted address has
the length of the plaintext "host:port" text, and (whenever the real sizes
fit a `uint16_t`, as the 8-byte IV and ≤ 262-byte address always do) the
size field equals `len(iv) + len(encrypted address)`.  At the end-to-end
example target "127.0.0.1:80" with the 8-byte IV this makes the size
`8 + 12`. -/
theorem handshake_frame_layout (ks : KS) (e : Bool) (key iv : List Nat)
    (addr_port : String)
    (hlen : iv.length + (strBytes addr_port).length < 65536) :
    (send_handshake ks e key iv addr_port).frame
      = u16NativeBytes e (send_handshake ks e key iv addr_port).sizeField
          ++ (send_handshake ks e key iv addr_port).ivBytes
          ++ (send_handshake ks e key iv addr_port).encAddr
    ∧ (send_handshake ks e key iv addr_port).encAddr.length = (strBytes addr_port).length
    ∧ (send_handshake ks e key iv addr_port).sizeField
        = iv.length + (strBytes addr_port).length := by
  refine ⟨rfl, ?_, ?_⟩
  · show (xorKeystream ks key iv 0 (strBytes addr_port)).length = (strBytes addr_port).length
    exact xorKeystream_length ks key iv 0 (strBytes addr_port)
  · show (iv.length + (strBytes addr_port).length) % 65536
        = iv.length + (strBytes addr_port).length
    exact Nat.mod_eq_of_lt hlen

/-- C4 witness: the end-to-end example — with the 8-byte IV and the target
"127.0.0.1:80" (12 bytes), the size field is `8 + 12 = 20`. -/
theorem handshake_frame_layout_witness :
    (send_handshake (fun _ _ _ => 0) false [] (List.replicate 8 0) "127.0.0.1:80").sizeField
      = (List.replicate 8 0).length + (strBytes "127.0.0.1:80").length
    ∧ (List.replicate 8 0).length + (strBytes "127.0.0.1:80").length = 8 + 12 :=
  ⟨(handshake_frame_layout (fun _ _ _ => 0) false [] (List.replicate 8 0) "127.0.0.1:80"
      (by decide)).2.2,
   by decide⟩

/-- C9: the size field goes to the wire in the host's native byte order —
`send_handshake` applies no endianness conversion to it (unlike the
`big_to_native` conversions on the SOCKS5 port fields), so the first two
frame bytes are `[lo, hi]` on a little-endian host and `[hi, lo]` on a
big-endian host, and whenever those differ the emitted frames differ:
the wire encoding is platform-dependent. -/
theorem handshake_size_host_order (ks : KS) (key iv : List Nat) (addr_port : String) :
    (send_handshake ks false key iv addr_port).frame.take 2
      = [(send_handshake ks false key iv addr_port).sizeField % 256,
         (send_handshake ks false key iv addr_port).sizeField / 256 % 256]
    ∧ (send_handshake ks true key iv addr_port).frame.take 2
      = [(send_handshake ks true key iv addr_port).sizeField / 256 % 256,
         (send_handshake ks true key iv addr_port).sizeField % 256]
    ∧ ((send_handshake ks false key iv addr_port).sizeField % 256
          ≠ (send_handshake ks false key iv addr_port).sizeField / 256 % 256 →
        (send_handshake ks false key iv addr_port).frame.take 2
          ≠ (send_handshake ks true key iv addr_port).frame.take 2) := by
  refine ⟨rfl, rfl, ?_⟩
  intro hne hcontra
  have hcl : [(send_handshake ks false key iv addr_port).sizeField % 256,
        (send_handshake ks false key iv addr_port).sizeField / 256 % 256]
      = [(send_handshake ks false key iv addr_port).sizeField / 256 % 256,
         (send_handshake ks false key iv addr_port).sizeField % 256] := hcontra
  injection hcl with h1 h2
  exact hne h1

/-- C9 witness: at the example session (8-byte IV, target "127.0.0.1:80",
size 20) the frame starts `[20, 0]` on a little-endian host and `[0, 20]` on
a big-endian host — different wire bytes on the two platforms. -/
theorem handshake_size_host_order_witness :
    (send_handshake (fun _ _ _ => 0) false [] (List.replicate 8 0) "127.0.0.1:80").frame.take 2
      ≠ (send_handshake (fun _ _ _ => 0) true [] (List.replicate 8 0) "127.0.0.1:80").frame.take 2 :=
  (handshake_size_host_order (fun _ _ _ => 0) [] (List.replicate 8 0) "127.0.0.1:80").2.2
    (by decide)

/-- C10: the send-direction keystream is shared continuously between the
handshake and forwarding — encrypting "host:port" consumes keystream
positions `0` through `len - 1` (the ciphertext is the XOR at offset 0), the
`encrypt` member's cursor afterwards sits at `len(addr_port)`, so the first
chunk the local→remote pump feeds to `encrypt.ProcessString` is XORed with
keystream positions starting at `len(addr_port)`; when the address is
nonempty that state differs from a fresh offset-zero state. -/
theorem keystream_continues_after_handshake (ks : KS) (e : Bool) (key iv : List Nat)
    (addr_port : String) (b : List Nat) :
    (send_handshake ks e key iv addr_port).encAddr
      = xorKeystream ks key iv 0 (strBytes addr_port)
    ∧ (send_handshake ks e key iv addr_port).encryptAfter
      = { key := key, iv := iv, pos := (strBytes addr_port).length }
    ∧ (processString ks (send_handshake ks e key iv addr_port).encryptAfter b).2
      = xorKeystream ks key iv (strBytes addr_port).length b
    ∧ ((strBytes addr_port).length ≠ 0 →
        (send_handshake ks e key iv addr_port).encryptAfter ≠ setKeyWithIV key iv) := by
  refine ⟨rfl, ?_, ?_, ?_⟩
  · show ({ key := key, iv := iv, pos := 0 + (strBytes addr_port).length } : CipherState)
      = { key := key, iv := iv, pos := (strBytes addr_port).length }
    rw [Nat.zero_add]
  · show xorKeystream ks key iv (0 + (strBytes addr_port).length) b
      = xorKeystream ks key iv (strBytes addr_port).length b
    rw [Nat.zero_add]
  · intro hne hcontra
    have hpos := congrArg CipherState.pos hcontra
    have hL : (send_handshake ks e key iv addr_port).encryptAfter.pos
        = 0 + (strBytes addr_port).length := rfl
    rw [hL] at hpos
    simp only [setKeyWithIV] at hpos
    omega

/-- C10 witness: for the example address "127.0.0.1:80" (12 bytes) the
encrypt state after the handshake is not the fresh offset-zero state. -/
theorem keystream_continues_after_handshake_witness :
    (send_handshake (fun _ _ _ => 0) false [] [] "127.0.0.1:80").encryptAfter
      ≠ setKeyWithIV [] [] :=
  (keystream_continues_after_handshake (fun _ _ _ => 0) false [] [] "127.0.0.1:80" []).2.2.2
    (by decide)

/-! ## Forwarding pumps (client_session.cpp lines 270-290 and 310-329)

Both pumps loop on `async_read(sock, dynamic_buffer(buf), yield)`.  With no
explicit completion condition this overload of `boost::asio::async_read`
uses `transfer_all` and completes only when the dynamic buffer is full —
i.e. has reached its maximum size, which for `dynamic_buffer(std::vector)`
with no size argument is the vector's `max_size()`, never reached by real
traffic — or when a read fails (including end-of-stream).  With the plain
`yield` token the failure is thrown as a `system_error`.  Consequently each
pump accumulates every byte its source ever delivers into the growing
vector, the loop body after the read is never reached, and the single
`catch (system_error &)` closes both sockets without rethrowing. -/

/-- What the source socket delivers over time: chunks of bytes, terminated
by an orderly close (end-of-stream) or a read failure. -/
inductive IOEvent where
  | data : List Nat → IOEvent
  | closed : IOEvent
  | failed : IOEvent
  deriving Repr, DecidableEq

/-- Why the `async_read` on the unbounded dynamic buffer finished: the
`error_code` of the `system_error` it throws. -/
inductive Cause where
  | endOfStream
  | readFailed
  deriving Repr, DecidableEq

/-- `async_read(sock, dynamic_buffer(buf), yield)` with the unbounded
dynamic buffer: accumulate every delivered chunk into `acc` until the
stream closes or a read fails; the error is thrown, together with all the
bytes buffered so far and the unconsumed rest of the event stream.  An
exhausted event list behaves like an orderly close. -/
def asyncReadDynamic : List IOEvent → List Nat → Cause × List Nat × List IOEvent
  | [], acc => (.endOfStream, acc, [])
  | .data d :: rest, acc => asyncReadDynamic rest (acc ++ d)
  | .closed :: rest, acc => (.endOfStream, acc, rest)
  | .failed :: rest, acc => (.readFailed, acc, rest)

/-- Observable outcome of one pump: the chunks it wrote to its sink socket,
whether it closed each of the session's two sockets, what escaped the
`try`/`catch` to the caller, the `system_error` cause the loop raised
internally, and how many bytes the dynamic buffer held when the pump
terminated. -/
structure PumpResult where
  written : List (List Nat)
  localClosed : Bool
  remoteClosed : Bool
  propagated : Option Cause
  raised : Cause
  bufferedBytes : Nat
  deriving Repr, DecidableEq

/-- `client_session::do_forward_local_to_remote` (lines 270-290): loop
`{ n_read = async_read(local, dynamic_buffer(buf), yield);
encrypt.ProcessString(buf, n_read); async_write(remote, buf, transfer_all);
buf.clear(); }` wrapped in `try`/`catch (system_error &)` whose handler runs
`local.close(); remote.close();` and returns.  Because the unbounded
dynamic-buffer read only ever completes by throwing (see the section
comment), `ProcessString` and the write to the remote are never reached:
nothing is written, every delivered byte is buffered, and the error is
swallowed after the dual close.  The `encrypt` cipher state is therefore
never advanced by the pump. -/
def do_forward_local_to_remote (_ks : KS) (_encrypt : CipherState)
    (src : List IOEvent) : PumpResult :=
  { written := []
    localClosed := true
    remoteClosed := true
    propagated := none
    raised := (asyncReadDynamic src []).1
    bufferedBytes := (asyncReadDynamic src []).2.1.length }

/-- `client_session::do_forward_remote_to_local` (lines 310-329): identical
loop in the opposite direction (`decrypt.ProcessString`, write to `local`),
with the same `try`/`catch` that closes both sockets and swallows the
error. -/
def do_forward_remote_to_local (_ks : KS) (_decrypt : CipherState)
    (src : List IOEvent) : PumpResult :=
  { written := []
    localClosed := true
    remoteClosed := true
    propagated := none
    raised := (asyncReadDynamic src []).1
    bufferedBytes := (asyncReadDynamic src []).2.1.length }

/-- `msocks::pair` from `src/utility/socket_pair.hpp` (lines 10-30), the
standalone pump utility that `client_session` does not use: loop
`{ n_read = src.async_read_some(buffer(buf)); transform(buffer(buf, n_read));
async_write(dst, buffer(buf, n_read)); }`, reading at most `buf.size()`
bytes per iteration into the caller-supplied fixed buffer, returning the
first `error_code` and closing nothing.  Input chunks model successive
`async_read_some` completions, each bounded by the buffer size. -/
def pair (bufSize : Nat) (transform : List Nat → List Nat) :
    List IOEvent → List (List Nat) → List (List Nat) × Cause
  | [], written => (written, .endOfStream)
  | .data d :: rest, written =>
      pair bufSize transform rest (written ++ [transform (d.take bufSize)])
  | .closed :: _, written => (written, .endOfStream)
  | .failed :: _, written => (written, .readFailed)

/-- The standalone `pair` utility — unlike the session's pumps — does
bound its reads: if the transform preserves chunk lengths (as the in-place
cipher does), every chunk it writes is at most the fixed buffer size. -/
theorem pair_chunks_bounded (bufSize : Nat) (transform : List Nat → List Nat)
    (hT : ∀ l : List Nat, (transform l).length = l.length) :
    ∀ (src : List IOEvent) (written : List (List Nat)),
      (∀ w ∈ written, w.length ≤ bufSize) →
      ∀ w ∈ (pair bufSize transform src written).1, w.length ≤ bufSize := by
  intro src
  induction src with
  | nil => intro written hw w hmem; exact hw w hmem
  | cons ev rest ih =>
      intro written hw w hmem
      cases ev with
      | data d =>
          refine ih (written ++ [transform (d.take bufSize)]) ?_ w hmem
          intro u hu
          rcases List.mem_append.mp hu with h1 | h2
          · exact hw u h1
          · rw [List.mem_singleton.mp h2, hT]
            simp [List.length_take]
      | closed => exact hw w hmem
      | failed => exact hw w hmem

/-- C2: refuted by the code of the pumps the session actually spawns — for
EVERY cipher state and event stream, `do_forward_local_to_remote` writes
nothing at all to its sink, and for every `n` a local client that delivers
`n` bytes and then closes makes the pump buffer all `n` bytes, so the
buffer grows with the input instead of being fixed per pump instance.
(The unused `pair` utility, by contrast, does bound each read by its caller
supplied buffer.) -/
theorem pump_buffers_unboundedly_and_never_writes :
    (∀ (ks : KS) (c : CipherState) (src : List IOEvent),
      (do_forward_local_to_remote ks c src).written = [])
    ∧ (∀ n : Nat,
      (do_forward_local_to_remote (fun _ _ _ => 0) (setKeyWithIV [] [])
          [.data (List.replicate n 7), .closed]).bufferedBytes = n) := by
  constructor
  · intro ks c src
    rfl
  · intro n
    show (asyncReadDynamic [.data (List.replicate n 7), .closed] []).2.1.length = n
    simp [asyncReadDynamic]

/-- C6: whatever the source delivers — data then an orderly close, or a
read failure — each pump terminates having closed BOTH sockets, and
propagates nothing to its caller (the raised `system_error` is swallowed by
the `catch` after the dual close). -/
theorem pump_dual_close_no_propagation (ks1 ks2 : KS) (enc dec : CipherState)
    (src1 src2 : List IOEvent) :
    ((do_forward_local_to_remote ks1 enc src1).localClosed = true
      ∧ (do_forward_local_to_remote ks1 enc src1).remoteClosed = true
      ∧ (do_forward_local_to_remote ks1 enc src1).propagated = none)
    ∧ ((do_forward_remote_to_local ks2 dec src2).localClosed = true
      ∧ (do_forward_remote_to_local ks2 dec src2).remoteClosed = true
      ∧ (do_forward_remote_to_local ks2 dec src2).propagated = none) :=
  ⟨⟨rfl, rfl, rfl⟩, ⟨rfl, rfl, rfl⟩⟩

/-! ## Session state machine (client_session.cpp lines 227-256) -/

/-- Observable trace of `client_session::start`: whether
`remote.async_connect` was reached, the frames written to the remote,
whether the two forwarding pumps were spawned, the bytes written to the
local socket on the successful path, and the encrypt state handed to the
pumps after the handshake. -/
structure SessionTrace where
  remoteConnectAttempted : Bool
  remoteWrites : List (List Nat)
  pumpsSpawned : Bool
  localWrites : List Nat
  encryptAfterHandshake : Option CipherState
  deriving Repr, DecidableEq

/-- The textual "host:port" built by `do_get_proxy_addr`: dotted decimal for
IPv4, the `boost` string form (an opaque parameter `fmt6`, out of scope) for
IPv6, the raw characters for a domain; always `":" ++ port` appended. -/
def addrToString (fmt6 : List Nat → String) : Addr → String
  | .v4 bs p =>
      toString (bs.getD 0 0) ++ "." ++ toString (bs.getD 1 0) ++ "."
        ++ toString (bs.getD 2 0) ++ "." ++ toString (bs.getD 3 0) ++ ":" ++ toString p
  | .v6 bs p => fmt6 bs ++ ":" ++ toString p
  | .domain bs p => String.mk (bs.map Char.ofNat) ++ ":" ++ toString p

/-- `client_session::start` (lines 227-256): run `do_local_socks5`; when it
fails — a thrown `system_error` (caught by the surrounding `try`) or a
`(false, ...)` result — return at once, before `remote.async_connect`.
Otherwise connect to the pre-configured relay endpoint (outcome modelled by
`connectOk`; a failed connect throws and is caught), send the handshake, and
only then spawn the two forwarding pumps.  The `(true, none)` arm cannot be
produced by `do_local_socks5`, and the local-side reply bytes already
written when a later step throws are not tracked. -/
def start (ks : KS) (e : Bool) (fmt6 : List Nat → String) (key iv : List Nat)
    (connectOk : Bool) (localIn : List Nat) : SessionTrace :=
  match do_local_socks5 localIn with
  | .error _ =>
      { remoteConnectAttempted := false, remoteWrites := [], pumpsSpawned := false,
        localWrites := [], encryptAfterHandshake := none }
  | .ok (false, _, replies, _) =>
      { remoteConnectAttempted := false, remoteWrites := [], pumpsSpawned := false,
        localWrites := replies, encryptAfterHandshake := none }
  | .ok (true, none, replies, _) =>
      { remoteConnectAttempted := false, remoteWrites := [], pumpsSpawned := false,
        localWrites := replies, encryptAfterHandshake := none }
  | .ok (true, some a, replies, _) =>
      if connectOk then
        { remoteConnectAttempted := true
          remoteWrites := [(send_handshake ks e key iv (addrToString fmt6 a)).frame]
          pumpsSpawned := true
          localWrites := replies
          encryptAfterHandshake :=
            some (send_handshake ks e key iv (addrToString fmt6 a)).encryptAfter }
      else
        { remoteConnectAttempted := true, remoteWrites := [], pumpsSpawned := false,
          localWrites := replies, encryptAfterHandshake := none }

/-- The SOCKS5 negotiation failed: a read threw, or one of the steps
returned `false` (no supported auth method, bad version/command/address
type in the request). -/
def socksPhaseFailsB (s : List Nat) : Bool :=
  match do_local_socks5 s with
  | .error _ => true
  | .ok (ok1, _, _, _) => !ok1

/-- C5: whenever a step before forwarding fails — a transport error during
the greeting or request reads, or a protocol failure such as a greeting
offering only method 0x02 — `start` returns at once: `async_connect` on the
remote is never reached, zero bytes are written to the remote relay, and no
forwarding pumps are spawned. -/
theorem early_failure_aborts_session (ks : KS) (e : Bool)
    (fmt6 : List Nat → String) (key iv : List Nat) (connectOk : Bool)
    (localIn : List Nat) (h : socksPhaseFailsB localIn = true) :
    (start ks e fmt6 key iv connectOk localIn).remoteConnectAttempted = false
    ∧ (start ks e fmt6 key iv connectOk localIn).remoteWrites = []
    ∧ (start ks e fmt6 key iv connectOk localIn).pumpsSpawned = false := by
  unfold socksPhaseFailsB at h
  unfold start
  cases hdl : do_local_socks5 localIn with
  | error err =>
      exact ⟨rfl, rfl, rfl⟩
  | ok v =>
      obtain ⟨ok1, addrOpt, replies, rest⟩ := v
      rw [hdl] at h
      simp only [Bool.not_eq_true'] at h
      subst h
      exact ⟨rfl, rfl, rfl⟩

/-- C5 witness: the greeting `[5, 1, 2]` offers only method 0x02, so the
auth step fails and the session aborts with no remote connection, no bytes
to the remote, and no pumps. -/
theorem early_failure_aborts_session_witness :
    socksPhaseFailsB [5, 1, 2] = true
    ∧ ((start (fun _ _ _ => 0) false (fun _ => "") [] [] true [5, 1, 2]).remoteConnectAttempted = false
      ∧ (start (fun _ _ _ => 0) false (fun _ => "") [] [] true [5, 1, 2]).remoteWrites = []
      ∧ (start (fun _ _ _ => 0) false (fun _ => "") [] [] true [5, 1, 2]).pumpsSpawned = false) :=
  ⟨by decide,
   early_failure_aborts_session (fun _ _ _ => 0) false (fun _ => "") [] [] true [5, 1, 2]
     (by decide)⟩

end MSocks
